import Mathlib

/-
Shallow embedding of the vibebot repository (src/vibebot.py and
src/x_interactor.py) together with theorems about the timeline decision
pipeline and the OAuth token lifecycle.

Modelling conventions:
- Machine strings are Lean String values; character-level operations are
  carried out on the underlying List Char.
- The language model invocation (VibeBot._generate_text) is abstracted as a
  pure function from the prompt to the generated text.
- Network calls are abstracted by passing the response the transport would
  deliver as an explicit argument; a list of responses scripts successive
  answers of one endpoint.
- The wall clock (time.time) is passed explicitly as a natural number of
  seconds; time.sleep advances it.
- Python truthiness of optional strings and numbers is modelled explicitly
  (None and the empty string are falsy, None and 0 are falsy for numbers).
-/

namespace Vibebot

/-! ### Python string helpers used by the pipeline gate -/

/-- Whitespace characters removed by the Python str.strip method
(restricted to the ASCII whitespace set, which covers all inputs that
occur in this development). -/
def pyIsSpace (c : Char) : Bool :=
  c = ' ' || c = '\t' || c = '\n' || c = '\r' || c = '\x0b' || c = '\x0c'

/-- Python str.strip with no argument: drop leading and trailing
whitespace. -/
def pyStripChars (s : List Char) : List Char :=
  ((s.dropWhile pyIsSpace).reverse.dropWhile pyIsSpace).reverse

/-- Python str.upper restricted to ASCII letters: uppercase every
character. -/
def pyUpperChars (s : List Char) : List Char :=
  s.map Char.toUpper

/-! ### Data model of the pipeline (src/vibebot.py, src/x_interactor.py) -/

/-- The Tweet class of src/x_interactor.py: id, author_id, text,
created_at and the list of referenced tweets (each a string-to-string
dictionary, modelled as an association list). -/
structure Tweet where
  id : String
  author_id : String
  text : String
  created_at : String
  referenced_tweets : List (List (String × String))
  deriving Repr, DecidableEq

/-- PersonaConfig from src/config.py. -/
structure PersonaConfig where
  name : String
  description : String
  tone : String
  interests : List String
  adaptive : Bool
  deriving Repr, DecidableEq

/-- The part of VibeBotConfig (src/config.py) read by the decision
pipeline: the user id of the bot account and the persona. -/
structure BotConfig where
  user_id : String
  persona : PersonaConfig
  deriving Repr, DecidableEq

/-- One entry of the responded_to list built by
VibeBot.timeline_interface: the original tweet, the generated reply text
and the id of the posted reply (None in simulation mode). -/
structure ReplyOutcome where
  original_tweet : Tweet
  reply : String
  reply_id : Option String
  deriving Repr, DecidableEq

/-- One row written to bot_db by BotDB.add_post as called from
VibeBot.timeline_interface. -/
structure PostRecord where
  post_id : String
  content_gen_prompt : String
  content : String
  is_reply : Bool
  deriving Repr, DecidableEq

/-! ### Prompts (VibeBot._should_reply_to_tweet, VibeBot._generate_reply) -/

/-- The gating prompt built in VibeBot._should_reply_to_tweet
(the f-string of lines 185-195 of src/vibebot.py, including the
indentation of the triple-quoted literal). -/
def gating_prompt (p : PersonaConfig) (t : Tweet) : String :=
  "\n        You are an AI assistant helping to determine if a tweet is worth replying to.\n        A good tweet to reply to should:\n        1. Touch on newsworthy topics\n        2. Introduce substantive ideas that can be expanded upon\n        3. Be relevant to the interests of " ++
  p.name ++ ", who is interested in " ++ String.intercalate ", " p.interests ++
  "\n        \n        Tweet: \"" ++ t.text ++
  "\"\n        \n        Should we reply to this tweet? Answer with YES or NO and a brief explanation.\n        "

/-- The reply-generation prompt built in VibeBot._generate_reply
(lines 212-224 of src/vibebot.py). -/
def reply_prompt (p : PersonaConfig) (t : Tweet) : String :=
  "\n        You are " ++ p.name ++ ", " ++ p.description ++
  "\n        \n        Your tone is: " ++ p.tone ++
  "\n        Your interests include: " ++ String.intercalate ", " p.interests ++
  "\n        \n        Someone tweeted: \"" ++ t.text ++
  "\"\n        \n        Write a thoughtful reply to this tweet. Your reply should be engaging, relevant, and reflect your persona.\n        Keep your reply concise (under 280 characters) and make sure it adds value to the conversation.\n        \n        Your reply:\n        "

/-! ### The decision pipeline -/

/-- The YES test on the model response in VibeBot._should_reply_to_tweet:
response.strip().upper().startswith(\x22YES\x22). -/
def yes_gate (response : String) : Bool :=
  "YES".data.isPrefixOf (pyUpperChars (pyStripChars response.data))

/-- VibeBot._should_reply_to_tweet. The model argument abstracts
VibeBot._generate_text as a pure function from prompt to response. -/
def should_reply_to_tweet (cfg : BotConfig) (model : String → String) (t : Tweet) : Bool :=
  if t.author_id = cfg.user_id then false
  else yes_gate (model (gating_prompt cfg.persona t))

/-- VibeBot._generate_reply: generate a reply and truncate it to 280
characters, replacing the tail with three dots when truncation occurred
(reply[:277] + three dots). -/
def generate_reply (p : PersonaConfig) (model : String → String) (t : Tweet) : String :=
  let reply := model (reply_prompt p t)
  if reply.length > 280 then String.mk (reply.data.take 277 ++ "...".data) else reply

/-- VibeBot.timeline_interface, processing a fetched timeline batch in
order. The post_reply argument abstracts XInteractor.reply_to_tweet
(returning the reply id on success and none on failure); the third
component of the result collects the rows written to bot_db. The
recursion produces the same lists as the appending loop of the source. -/
def timeline_interface (cfg : BotConfig) (model : String → String)
    (post_reply : Tweet → String → Option String) (reply_to_tweets : Bool) :
    List Tweet → List ReplyOutcome × List Tweet × List PostRecord
  | [] => ([], [], [])
  | t :: rest =>
    let r := timeline_interface cfg model post_reply reply_to_tweets rest
    if should_reply_to_tweet cfg model t then
      let reply_text := generate_reply cfg.persona model t
      if reply_to_tweets then
        match post_reply t reply_text with
        | some reply_id =>
          (⟨t, reply_text, some reply_id⟩ :: r.1, r.2.1,
           ⟨reply_id, "Reply to tweet: " ++ t.text, reply_text, true⟩ :: r.2.2)
        | none => r
      else
        (⟨t, reply_text, none⟩ :: r.1, r.2.1, r.2.2)
    else
      (r.1, t :: r.2.1, r.2.2)

/-! ### Shared helper lemmas about the pipeline -/

/-- Both output sequences of timeline_interface are sublists of the input
batch, hence preserve the relative order of the input posts. -/
lemma timeline_interface_sublist (cfg : BotConfig) (model : String → String)
    (post_reply : Tweet → String → Option String) (commit : Bool) :
    ∀ tl : List Tweet,
      List.Sublist
        (((timeline_interface cfg model post_reply commit tl).1).map
          (fun r => r.original_tweet)) tl
      ∧ List.Sublist ((timeline_interface cfg model post_reply commit tl).2.1) tl := by
  intro tl
  induction tl with
  | nil =>
    constructor <;> simp [timeline_interface]
  | cons t rest ih =>
    obtain ⟨ih1, ih2⟩ := ih
    simp only [timeline_interface]
    cases hg : should_reply_to_tweet cfg model t with
    | false =>
      simp only [Bool.false_eq_true, if_false]
      exact ⟨ih1.cons t, ih2.cons₂ t⟩
    | true =>
      simp only [if_true]
      cases commit with
      | false =>
        simp only [Bool.false_eq_true, if_false, List.map_cons]
        exact ⟨ih1.cons₂ t, ih2.cons t⟩
      | true =>
        simp only [if_true]
        cases hpr : post_reply t (generate_reply cfg.persona model t) with
        | none =>
          exact ⟨ih1.cons t, ih2.cons t⟩
        | some reply_id =>
          simp only [List.map_cons]
          exact ⟨ih1.cons₂ t, ih2.cons t⟩

/-! ### Concrete instances used in examples and witnesses -/

/-- A small persona used for concrete evaluations. -/
def persona0 : PersonaConfig :=
  ⟨"P", "a demo persona", "neutral", ["testing"], false⟩

/-- A bot configuration whose own account id is the string self. -/
def cfg0 : BotConfig :=
  ⟨"self", persona0⟩

/-- Demo tweet A, authored by another account. -/
def tA : Tweet := ⟨"1", "u1", "tweet text A", "2024-01-01", []⟩

/-- Demo tweet B, authored by another account. -/
def tB : Tweet := ⟨"2", "u2", "tweet text B", "2024-01-01", []⟩

/-- Demo tweet C, authored by another account. -/
def tC : Tweet := ⟨"3", "u3", "tweet text C", "2024-01-01", []⟩

/-- Demo tweet authored by the bot itself (author id self). -/
def tSelf : Tweet := ⟨"4", "self", "tweet by the bot", "2024-01-01", []⟩

/-- A model that always answers YES. -/
def modelYes : String → String := fun _ => "YES"

/-- A model that answers NO on the gating prompt for tweet B and YES on
every other prompt. -/
def model0 : String → String :=
  fun p => if p = gating_prompt persona0 tB then "NO" else "YES"

/-- A model that answers with a leading space before yes in lowercase. -/
def modelSpaceYes : String → String := fun _ => " yes"

/-- A model whose reply text is 300 characters long. -/
def modelLong : String → String := fun _ => String.mk (List.replicate 300 'a')

/-- A posting function that always fails (reply_to_tweet returns None). -/
def prNone : Tweet → String → Option String := fun _ _ => none

/-! ### Claims about the decision pipeline -/

/-- Claim C2: for every post whose author_id equals the bot account id
(config.user_id), the gate returns false for every possible model output,
and the pipeline files the post in the ignored list, leaving the
responded list and the persisted records untouched. -/
theorem c2_self_reply_ignored (cfg : BotConfig) (t : Tweet)
    (h : t.author_id = cfg.user_id) :
    (∀ model, should_reply_to_tweet cfg model t = false)
    ∧ (∀ model post_reply commit rest,
        timeline_interface cfg model post_reply commit (t :: rest) =
          ((timeline_interface cfg model post_reply commit rest).1,
           t :: (timeline_interface cfg model post_reply commit rest).2.1,
           (timeline_interface cfg model post_reply commit rest).2.2)) := by
  have hg : ∀ model, should_reply_to_tweet cfg model t = false := by
    intro model
    simp [should_reply_to_tweet, h]
  refine ⟨hg, ?_⟩
  intro model post_reply commit rest
  simp [timeline_interface, hg]

/-- Witness for claim C2 at a concrete self-authored tweet. -/
theorem c2_self_reply_ignored_witness :
    should_reply_to_tweet cfg0 modelYes tSelf = false :=
  (c2_self_reply_ignored cfg0 tSelf rfl).1 modelYes

/-- Claim C3: when the generated reply text is strictly longer than 280
characters the committed reply has exactly 280 characters and its last
three characters are the ellipsis marker; otherwise the committed reply
is the generated text unchanged. -/
theorem c3_reply_truncation (p : PersonaConfig) (model : String → String) (t : Tweet) :
    ((model (reply_prompt p t)).length > 280 →
       (generate_reply p model t).length = 280
       ∧ (generate_reply p model t).data.drop 277 = "...".data)
    ∧ ((model (reply_prompt p t)).length ≤ 280 →
       generate_reply p model t = model (reply_prompt p t)) := by
  constructor
  · intro hlong
    have hlen : 277 ≤ (model (reply_prompt p t)).data.length := by
      have := hlong
      simp only [String.length] at this
      omega
    have htake : ((model (reply_prompt p t)).data.take 277).length = 277 := by
      simp [List.length_take]
      omega
    constructor
    · simp only [generate_reply]
      rw [if_pos hlong]
      simp [String.length, List.length_append, htake]
    · simp only [generate_reply]
      rw [if_pos hlong]
      simp only [String.mk]
      calc ((model (reply_prompt p t)).data.take 277 ++ "...".data).drop 277
          = ((model (reply_prompt p t)).data.take 277 ++ "...".data).drop
              ((model (reply_prompt p t)).data.take 277).length := by rw [htake]
        _ = "...".data := List.drop_left _ _
  · intro hshort
    have : ¬ (model (reply_prompt p t)).length > 280 := by omega
    simp only [generate_reply, if_neg this]

set_option maxRecDepth 4000 in
/-- Witness for claim C3 at a 300-character generated reply. -/
theorem c3_reply_truncation_witness :
    (generate_reply persona0 modelLong tA).length = 280
    ∧ (generate_reply persona0 modelLong tA).data.drop 277 = "...".data :=
  (c3_reply_truncation persona0 modelLong tA).1 (by decide)

set_option maxRecDepth 8000 in
/-- Claim C4: for every input batch, the two output sequences of
timeline_interface are order-preserving subsequences of the input, and on
the concrete batch A, B, C whose gate verdicts are REPLY, IGNORE, REPLY
the replied list is A, C and the ignored list is B. -/
theorem c4_batch_order_preservation :
    (∀ (cfg : BotConfig) (model : String → String)
        (post_reply : Tweet → String → Option String) (commit : Bool)
        (tl : List Tweet),
      List.Sublist
        (((timeline_interface cfg model post_reply commit tl).1).map
          (fun r => r.original_tweet)) tl
      ∧ List.Sublist ((timeline_interface cfg model post_reply commit tl).2.1) tl)
    ∧ timeline_interface cfg0 model0 prNone false [tA, tB, tC] =
        ([⟨tA, "YES", none⟩, ⟨tC, "YES", none⟩], [tB], []) := by
  constructor
  · intro cfg model post_reply commit tl
    exact timeline_interface_sublist cfg model post_reply commit tl
  · decide

/-- Counterexample for claim C5 as stated: on the model response with a
leading space before a lowercase yes, the gate verdict is REPLY although
the case-normalized response does not start with the literal token YES. -/
theorem c5_counterexample :
    should_reply_to_tweet cfg0 modelSpaceYes tA = true
    ∧ "YES".data.isPrefixOf (pyUpperChars (" yes").data) = false := by
  decide

/-- Claim C5 (amended): for every post not authored by the bot itself,
the verdict is REPLY if and only if the model response,
whitespace-stripped and case-normalized, starts with the literal token
YES; any other response yields IGNORE. -/
theorem c5_yes_gate_amended (cfg : BotConfig) (model : String → String) (t : Tweet)
    (h : t.author_id ≠ cfg.user_id) :
    should_reply_to_tweet cfg model t = true ↔
      ∃ rest, "YES".data ++ rest =
        pyUpperChars (pyStripChars (model (gating_prompt cfg.persona t)).data) := by
  simp only [should_reply_to_tweet, if_neg h, yes_gate]
  rw [List.isPrefixOf_iff_prefix]
  exact Iff.rfl

/-- Witness for the amended claim C5 at a concrete non-self tweet. -/
theorem c5_yes_gate_amended_witness :
    should_reply_to_tweet cfg0 modelYes tA = true ↔
      ∃ rest, "YES".data ++ rest =
        pyUpperChars (pyStripChars (modelYes (gating_prompt cfg0.persona tA)).data) :=
  c5_yes_gate_amended cfg0 modelYes tA (by decide)

/-- Claim C10: in a commit pass, a gate-accepted tweet whose reply
posting fails contributes nothing: the batch result equals the result for
the remaining tweets (so no post record is persisted for it), and the
tweet appears in neither returned sequence. -/
theorem c10_failed_reply_skipped (cfg : BotConfig) (model : String → String)
    (post_reply : Tweet → String → Option String) (t : Tweet) (rest : List Tweet)
    (hg : should_reply_to_tweet cfg model t = true)
    (hf : post_reply t (generate_reply cfg.persona model t) = none) :
    timeline_interface cfg model post_reply true (t :: rest) =
      timeline_interface cfg model post_reply true rest
    ∧ (t ∉ rest →
        t ∉ ((timeline_interface cfg model post_reply true (t :: rest)).1).map
              (fun r => r.original_tweet)
        ∧ t ∉ (timeline_interface cfg model post_reply true (t :: rest)).2.1) := by
  have heq : timeline_interface cfg model post_reply true (t :: rest) =
      timeline_interface cfg model post_reply true rest := by
    simp [timeline_interface, hg, hf]
  refine ⟨heq, ?_⟩
  intro hnotin
  have hs := timeline_interface_sublist cfg model post_reply true rest
  rw [heq]
  constructor
  · intro hmem
    exact hnotin (hs.1.subset hmem)
  · intro hmem
    exact hnotin (hs.2.subset hmem)

set_option maxRecDepth 4000 in
/-- Witness for claim C10: a concrete accepted tweet whose posting fails
leaves the result of the one-element batch equal to the empty-batch
result. -/
theorem c10_failed_reply_skipped_witness :
    timeline_interface cfg0 modelYes prNone true [tA] =
      timeline_interface cfg0 modelYes prNone true [] :=
  (c10_failed_reply_skipped cfg0 modelYes prNone tA [] (by decide) rfl).1

/-! ### OAuth session manager and platform client (src/x_interactor.py) -/

/-- Python truthiness of an optional string: None and the empty string
are falsy. -/
def truthyS : Option String → Bool
  | none => false
  | some s => decide (s ≠ "")

/-- Python truthiness of an optional number: None and 0 are falsy. -/
def truthyN : Option Nat → Bool
  | none => false
  | some n => decide (n ≠ 0)

/-- The token record kept in the Supabase oauth_tokens row written by
XInteractor._save_tokens_to_supabase (the user_id key and the updated_at
column are left implicit). -/
structure StoredTokens where
  access_token : Option String
  refresh_token : Option String
  token_expiry : Option Nat
  deriving Repr, DecidableEq

/-- The mutable attributes of an XInteractor instance, together with the
Supabase row it owns (store, or none when the table has no row). The
code_challenge attribute equals code_verifier in the source (plain PKCE)
and is therefore not duplicated here. -/
structure XState where
  client_id : String
  client_secret : Option String
  redirect_uri : String
  bearer_token : Option String
  user_id : Option String
  is_confidential_client : Bool
  has_supabase : Bool
  access_token : Option String
  refresh_token : Option String
  token_expiry : Option Nat
  scopes : List String
  code_verifier : String
  store : Option StoredTokens
  deriving Repr, DecidableEq

/-- The body of a 2xx response of the token endpoint: the fields read by
handle_callback and by _refresh_access_token, each optional because the
source uses dict.get. -/
structure TokenResponse where
  access_token : Option String
  refresh_token : Option String
  expires_in : Option Nat
  deriving Repr, DecidableEq

/-- Outcome of one HTTP POST as seen through raise_for_status: either a
parsed 2xx body or a raised RequestException (connection error or
non-2xx status). -/
inductive HttpResult (α : Type) where
  | success (body : α)
  | failure
  deriving Repr, DecidableEq

/-- XInteractor._save_tokens_to_supabase as invoked by its callers: when
a user id is set and a Supabase client exists, upsert the current token
fields into the oauth_tokens row; otherwise do nothing. -/
def save_tokens (st : XState) : XState :=
  if truthyS st.user_id && st.has_supabase then
    { st with store := some ⟨st.access_token, st.refresh_token, st.token_expiry⟩ }
  else st

/-- Result of XInteractor._refresh_access_token: the returned boolean,
the instance state afterwards, and the number of POSTs issued to the
token endpoint. -/
structure RefreshOutcome where
  ok : Bool
  state : XState
  token_endpoint_calls : Nat
  deriving Repr, DecidableEq

/-- XInteractor._refresh_access_token. Requires a truthy refresh token,
otherwise returns False without any network call; on a 2xx response it
stores the new access token, replaces the refresh token only when the
response contains one, sets the expiry to now plus expires_in (default
7200), and saves to Supabase. The resp argument is the answer the token
endpoint transport would deliver. -/
def refresh_access_token (st : XState) (now : Nat)
    (resp : HttpResult TokenResponse) : RefreshOutcome :=
  if truthyS st.refresh_token = false then ⟨false, st, 0⟩
  else
    match resp with
    | .failure => ⟨false, st, 1⟩
    | .success td =>
      let st1 := { st with
        access_token := td.access_token,
        refresh_token := match td.refresh_token with
          | some r => some r
          | none => st.refresh_token,
        token_expiry := some (now + td.expires_in.getD 7200) }
      ⟨true, save_tokens st1, 1⟩

/-- XInteractor.revoke_token. Refuses when neither the argument nor the
stored access token is truthy; otherwise posts the chosen token to the
revoke endpoint and, on success, clears the matching local token field
and upserts the (remaining) tokens into Supabase. -/
def revoke_token (st : XState) (token : Option String)
    (resp : HttpResult Unit) : Bool × XState :=
  if truthyS token = false ∧ truthyS st.access_token = false then (false, st)
  else
    let token_to_revoke := if truthyS token then token.getD "" else st.access_token.getD ""
    match resp with
    | .failure => (false, st)
    | .success _ =>
      let st1 :=
        if st.access_token = some token_to_revoke then
          { st with access_token := none }
        else if st.refresh_token = some token_to_revoke then
          { st with refresh_token := none }
        else st
      (true, save_tokens st1)

/-- XInteractor.get_authorization_url: pure construction of the
authorization URL from a freshly generated random state nonce (passed
here as the state argument). The nonce is not recorded anywhere in the
instance. -/
def get_authorization_url (st : XState) (state : String) : String :=
  "https://x.com/i/oauth2/authorize?response_type=code&client_id=" ++ st.client_id ++
  "&redirect_uri=" ++ st.redirect_uri ++
  "&scope=" ++ String.intercalate " " st.scopes ++
  "&state=" ++ state ++
  "&code_challenge=" ++ st.code_verifier ++
  "&code_challenge_method=plain"

/-- Result of XInteractor.handle_callback: the returned boolean, the
instance state afterwards, and the authorization codes posted to the
token endpoint for exchange. -/
structure CallbackOutcome where
  ok : Bool
  state : XState
  exchange_requests : List String
  deriving Repr, DecidableEq

/-- XInteractor.handle_callback. The returned_state parameter is
accepted but never compared with anything, exactly as in the source; the
code-for-token exchange is always attempted. The resp argument is the
answer of the token endpoint; user_info abstracts the nested
_get_user_info call (some uid on a 200 response whose data carries id
field uid, none when that request fails). -/
def handle_callback (st : XState) (now : Nat) (code : String)
    (returned_state : String) (resp : HttpResult TokenResponse)
    (user_info : Option (Option String)) : CallbackOutcome :=
  match resp with
  | .failure => ⟨false, st, [code]⟩
  | .success td =>
    let st1 := { st with
      access_token := td.access_token,
      refresh_token := td.refresh_token,
      token_expiry := some (now + td.expires_in.getD 7200) }
    let st2 := match user_info with
      | some uid => { st1 with user_id := uid }
      | none => st1
    let st3 := if truthyS st2.user_id && st2.has_supabase then save_tokens st2 else st2
    ⟨true, st3, [code]⟩

/-- One response of the platform API transport: HTTP status, the
x-rate-limit-reset header when present, and an abstract payload. -/
structure HttpResp where
  status : Nat
  rate_limit_reset : Option Nat
  payload : String
  deriving Repr, DecidableEq

/-- Result of XInteractor._make_authenticated_request: the returned
response (none models the None sentinel), the instance state, the total
seconds slept in rate-limit backoff, the number of refresh attempts
triggered by the expiry check, and the number of calls sent to the API
endpoint. -/
structure ReqOutcome where
  response : Option HttpResp
  state : XState
  slept : Nat
  refresh_attempts : Nat
  http_calls : Nat
  deriving Repr, DecidableEq

/-- The expiry check at the top of _make_authenticated_request: when an
access token and a truthy expiry exist and now is past the expiry, run
one refresh; the first component is none when that refresh failed. -/
def token_check (st : XState) (now : Nat)
    (refresh_resp : HttpResult TokenResponse) : Option XState × Nat :=
  if truthyS st.access_token = true ∧ truthyN st.token_expiry = true
      ∧ now > st.token_expiry.getD 0 then
    let r := refresh_access_token st now refresh_resp
    (if r.ok then some r.state else none, 1)
  else (some st, 0)

/-- The bearer selection of _make_authenticated_request: the user access
token when truthy, else the app bearer token, else nothing. -/
def auth_token (st : XState) : Option String :=
  if truthyS st.access_token then st.access_token
  else if truthyS st.bearer_token then st.bearer_token
  else none

/-- XInteractor._make_authenticated_request. The responses list scripts
the successive answers of the API endpoint (an empty list models a
transport error, the None of the source); on a 429 the function reads
the x-rate-limit-reset header (default 0), sleeps
max(reset - now, 0) + 1 seconds and re-enters itself on the remaining
script with the clock advanced by the sleep. The refresh_resp argument
scripts the token endpoint used by the expiry check. -/
def make_authenticated_request :
    XState → Nat → HttpResult TokenResponse → List HttpResp → ReqOutcome
  | st, now, refresh_resp, [] =>
    match token_check st now refresh_resp with
    | (none, k) => ⟨none, st, 0, k, 0⟩
    | (some st1, k) =>
      match auth_token st1 with
      | none => ⟨none, st1, 0, k, 0⟩
      | some _ => ⟨none, st1, 0, k, 1⟩
  | st, now, refresh_resp, resp :: rest =>
    match token_check st now refresh_resp with
    | (none, k) => ⟨none, st, 0, k, 0⟩
    | (some st1, k) =>
      match auth_token st1 with
      | none => ⟨none, st1, 0, k, 0⟩
      | some _ =>
        if resp.status = 429 then
          let reset := resp.rate_limit_reset.getD 0
          let wait := reset - now + 1
          let r := make_authenticated_request st1 (now + wait) refresh_resp rest
          ⟨r.response, r.state, wait + r.slept, k + r.refresh_attempts, 1 + r.http_calls⟩
        else ⟨some resp, st1, 0, k, 1⟩

/-! ### Shared helper lemmas about the token layer -/

/-- Saving tokens to Supabase does not change the access token field. -/
lemma save_tokens_access_token (s : XState) :
    (save_tokens s).access_token = s.access_token := by
  unfold save_tokens
  split <;> rfl

/-- Saving tokens to Supabase does not change the refresh token field. -/
lemma save_tokens_refresh_token (s : XState) :
    (save_tokens s).refresh_token = s.refresh_token := by
  unfold save_tokens
  split <;> rfl

/-- Saving tokens to Supabase does not change the expiry field. -/
lemma save_tokens_token_expiry (s : XState) :
    (save_tokens s).token_expiry = s.token_expiry := by
  unfold save_tokens
  split <;> rfl

/-- With a truthy user id and a Supabase client, saving writes the three
current token fields into the store row. -/
lemma save_tokens_store (s : XState) (hu : truthyS s.user_id = true)
    (hs : s.has_supabase = true) :
    (save_tokens s).store = some ⟨s.access_token, s.refresh_token, s.token_expiry⟩ := by
  unfold save_tokens
  rw [hu, hs]
  rfl

/-- With a truthy user id and a Supabase client, the store row after a
save reflects the token fields of the saved state. -/
lemma save_tokens_spec (s : XState) (hu : truthyS s.user_id = true)
    (hs : s.has_supabase = true) :
    (save_tokens s).store = some ⟨(save_tokens s).access_token,
      (save_tokens s).refresh_token, (save_tokens s).token_expiry⟩ := by
  rw [save_tokens_store s hu hs, save_tokens_access_token,
    save_tokens_refresh_token, save_tokens_token_expiry]

/-! ### Concrete token-layer instances used in witnesses -/

/-- A demo session state holding a full token record. -/
def demoState : XState :=
  { client_id := "cid", client_secret := some "sec",
    redirect_uri := "https://localhost:8000/callback",
    bearer_token := none, user_id := some "uid",
    is_confidential_client := true, has_supabase := true,
    access_token := some "acc", refresh_token := some "ref",
    token_expiry := some 5000, scopes := ["tweet.read"],
    code_verifier := "ver", store := none }

/-- The demo state with its refresh token missing. -/
def demoStateNoRefresh : XState :=
  { demoState with refresh_token := none }

/-- A demo 2xx token-endpoint body carrying a rotated refresh token. -/
def demoTok : TokenResponse := ⟨some "acc2", some "ref2", some 7200⟩

/-- A demo 200 response of the API endpoint. -/
def resp200 : HttpResp := ⟨200, none, "ok"⟩

/-- A demo 429 response whose reset header points at second 102. -/
def resp429 : HttpResp := ⟨429, some 102, "rate limited"⟩

/-! ### Claims about the token layer -/

/-- Claim C1 (the code violates it): handle_callback never validates the
returned state against the nonce of the preceding get_authorization_url
call. Its outcome is identical for any two returned states, and for
every returned state the code-for-token exchange is performed and the
call reports success on a 2xx exchange. -/
theorem c1_callback_state_not_validated :
    (∀ st now code s₁ s₂ resp user_info,
      handle_callback st now code s₁ resp user_info =
        handle_callback st now code s₂ resp user_info)
    ∧ (∀ s,
        (handle_callback demoState 1000 "authcode" s
          (.success demoTok) (some (some "uid"))).ok = true
        ∧ (handle_callback demoState 1000 "authcode" s
            (.success demoTok) (some (some "uid"))).exchange_requests = ["authcode"]) := by
  constructor
  · intro st now code s₁ s₂ resp user_info
    rfl
  · intro s
    exact ⟨rfl, rfl⟩

/-- Claim C6: with a held token record (non-empty access token, nonzero
expiry), the pre-request check of _make_authenticated_request runs
exactly one refresh attempt when now is past the expiry and none
otherwise; when that refresh fails the request returns the failure
sentinel without any API call on the stale token. -/
theorem c6_expiry_refresh_policy (st : XState) (now : Nat)
    (refresh_resp : HttpResult TokenResponse) (a : String) (e : Nat)
    (r : HttpResp) (rest : List HttpResp)
    (ha : st.access_token = some a) (ha2 : a ≠ "")
    (he : st.token_expiry = some e) (he2 : e ≠ 0)
    (hr : r.status ≠ 429) :
    (now > e →
       (make_authenticated_request st now refresh_resp (r :: rest)).refresh_attempts = 1
       ∧ ((refresh_access_token st now refresh_resp).ok = false →
            (make_authenticated_request st now refresh_resp (r :: rest)).response = none
            ∧ (make_authenticated_request st now refresh_resp (r :: rest)).http_calls = 0))
    ∧ (¬ now > e →
       (make_authenticated_request st now refresh_resp (r :: rest)).refresh_attempts = 0) := by
  have hts : truthyS st.access_token = true := by
    rw [ha]; simp [truthyS, ha2]
  constructor
  · intro hn
    have hc : token_check st now refresh_resp =
        (if (refresh_access_token st now refresh_resp).ok then
           some (refresh_access_token st now refresh_resp).state
         else none, 1) := by
      simp [token_check, hts, he, truthyN, he2, hn]
    cases hok : (refresh_access_token st now refresh_resp).ok with
    | false =>
      rw [hok, if_neg (by simp)] at hc
      have hres : make_authenticated_request st now refresh_resp (r :: rest) =
          ⟨none, st, 0, 1, 0⟩ := by
        simp only [make_authenticated_request, hc]
      rw [hres]
      exact ⟨rfl, fun _ => ⟨rfl, rfl⟩⟩
    | true =>
      rw [hok, if_pos rfl] at hc
      constructor
      · cases hat : auth_token (refresh_access_token st now refresh_resp).state with
        | none => simp only [make_authenticated_request, hc, hat]
        | some tok => simp only [make_authenticated_request, hc, hat, if_neg hr]
      · intro habs
        simp at habs
  · intro hn
    have hc : token_check st now refresh_resp = (some st, 0) := by
      simp [token_check, hts, he, truthyN, he2, hn]
    have hat : auth_token st = some a := by
      unfold auth_token
      rw [hts]
      simp [ha]
    simp only [make_authenticated_request, hc, hat, if_neg hr]

/-- Witness for claim C6: the demo state is expired at second 6000 and
its refresh fails on a token-endpoint error, so the request fails with
one refresh attempt and zero API calls. -/
theorem c6_expiry_refresh_policy_witness :
    (make_authenticated_request demoState 6000 HttpResult.failure [resp200]).refresh_attempts = 1
    ∧ (make_authenticated_request demoState 6000 HttpResult.failure [resp200]).response = none
    ∧ (make_authenticated_request demoState 6000 HttpResult.failure [resp200]).http_calls = 0 := by
  have h := c6_expiry_refresh_policy demoState 6000 HttpResult.failure "acc" 5000
    resp200 [] rfl (by decide) rfl (by decide) (by decide)
  have h1 := h.1 (by omega)
  have h2 := h1.2 (by decide)
  exact ⟨h1.1, h2.1, h2.2⟩

/-- Claim C7: refresh requires a truthy refresh token (with none stored
it fails with zero network calls and an unchanged state); on a 2xx
response the stored refresh token is replaced exactly when the response
carries one and kept otherwise. -/
theorem c7_refresh_rotation (st : XState) (now : Nat) :
    (∀ resp, st.refresh_token = none →
      refresh_access_token st now resp = ⟨false, st, 0⟩)
    ∧ (∀ (rt : String) (td : TokenResponse), st.refresh_token = some rt → rt ≠ "" →
        (refresh_access_token st now (.success td)).ok = true
        ∧ (refresh_access_token st now (.success td)).state.refresh_token =
            (match td.refresh_token with
             | some r2 => some r2
             | none => some rt)) := by
  constructor
  · intro resp hnone
    simp [refresh_access_token, truthyS, hnone]
  · intro rt td hrt hrt2
    have htr : truthyS st.refresh_token = true := by
      rw [hrt]; simp [truthyS, hrt2]
    constructor
    · simp [refresh_access_token, htr]
    · simp only [refresh_access_token, htr, Bool.true_eq_false, if_false]
      rw [save_tokens_refresh_token]
      cases td.refresh_token with
      | none => simp [hrt]
      | some r2 => simp

/-- Witness for claim C7: with no refresh token the call is a no-op
failure, and with the demo state the rotated token ref2 replaces ref. -/
theorem c7_refresh_rotation_witness :
    refresh_access_token demoStateNoRefresh 1000 HttpResult.failure =
      ⟨false, demoStateNoRefresh, 0⟩
    ∧ (refresh_access_token demoState 1000 (.success demoTok)).ok = true
    ∧ (refresh_access_token demoState 1000 (.success demoTok)).state.refresh_token =
        some "ref2" := by
  have h1 := (c7_refresh_rotation demoStateNoRefresh 1000).1 HttpResult.failure rfl
  have h2 := (c7_refresh_rotation demoState 1000).2 "ref" demoTok rfl (by decide)
  exact ⟨h1, h2.1, h2.2⟩

/-- Claim C8: a 429 answer makes the client sleep for
max(reset - now, 0) + 1 seconds, which is at least one second and
strictly past the reset instant, and retry exactly once per 429; with a
single 429 followed by a 200 the caller receives the 200 payload after
two API calls. -/
theorem c8_rate_limit_backoff (st : XState) (now : Nat)
    (refresh_resp : HttpResult TokenResponse) (a : String) (e reset : Nat)
    (r1 r2 : HttpResp)
    (ha : st.access_token = some a) (ha2 : a ≠ "")
    (he : st.token_expiry = some e) (he2 : e ≠ 0)
    (hnow : ¬ now > e)
    (h1 : r1.status = 429) (hreset : r1.rate_limit_reset = some reset)
    (h2 : r2.status = 200)
    (hnext : ¬ now + (reset - now + 1) > e) :
    (make_authenticated_request st now refresh_resp [r1, r2]).response = some r2
    ∧ (make_authenticated_request st now refresh_resp [r1, r2]).http_calls = 2
    ∧ (make_authenticated_request st now refresh_resp [r1, r2]).refresh_attempts = 0
    ∧ (make_authenticated_request st now refresh_resp [r1, r2]).slept = reset - now + 1
    ∧ 1 ≤ (make_authenticated_request st now refresh_resp [r1, r2]).slept
    ∧ reset < now + (make_authenticated_request st now refresh_resp [r1, r2]).slept := by
  have hts : truthyS st.access_token = true := by
    rw [ha]; simp [truthyS, ha2]
  have hat : auth_token st = some a := by
    unfold auth_token
    rw [hts]
    simp [ha]
  have hc1 : token_check st now refresh_resp = (some st, 0) := by
    simp [token_check, hts, he, truthyN, he2, hnow]
  have hc2 : token_check st (now + (reset - now + 1)) refresh_resp = (some st, 0) := by
    simp [token_check, hts, he, truthyN, he2, hnext]
  have h429 : ¬ r2.status = 429 := by
    rw [h2]; omega
  have hinner : make_authenticated_request st (now + (reset - now + 1)) refresh_resp [r2] =
      ⟨some r2, st, 0, 0, 1⟩ := by
    simp only [make_authenticated_request, hc2, hat, if_neg h429]
  have houter : make_authenticated_request st now refresh_resp [r1, r2] =
      ⟨some r2, st, reset - now + 1, 0, 2⟩ := by
    simp only [make_authenticated_request, hc1, hc2, hat, if_pos h1, hreset,
      Option.getD_some, if_neg h429]
  rw [houter]
  refine ⟨rfl, rfl, rfl, rfl, ?_, ?_⟩ <;> dsimp only [] <;> omega

/-- Witness for claim C8: the demo state at second 100 with a reset
header of 102 sleeps three seconds and returns the 200 payload on the
single retry. -/
theorem c8_rate_limit_backoff_witness :
    (make_authenticated_request demoState 100 HttpResult.failure [resp429, resp200]).response =
      some resp200
    ∧ (make_authenticated_request demoState 100 HttpResult.failure [resp429, resp200]).http_calls = 2
    ∧ (make_authenticated_request demoState 100 HttpResult.failure [resp429, resp200]).slept =
        102 - 100 + 1 := by
  have h := c8_rate_limit_backoff demoState 100 HttpResult.failure "acc" 5000 102
    resp429 resp200 rfl (by decide) rfl (by decide) (by omega) rfl rfl rfl (by omega)
  exact ⟨h.1, h.2.1, h.2.2.2.1⟩

/-- Counterexample for claim C9 as stated: revoking the current access
token at the demo state succeeds, yet the local refresh token survives
and the TokenStore entry is overwritten with the surviving tokens rather
than cleared. -/
theorem c9_counterexample :
    (revoke_token demoState none (.success ())).1 = true
    ∧ (revoke_token demoState none (.success ())).2.refresh_token = some "ref"
    ∧ (revoke_token demoState none (.success ())).2.store =
        some ⟨none, some "ref", some 5000⟩ := by
  decide

/-- Claim C9 (amended): on platform success revoke_token revokes the
given token or the current access token, clears the matching local token
field (the other token is retained), upserts the remaining record into
the TokenStore entry instead of deleting it, and is idempotent: revoking
a token that matches nothing still succeeds and leaves the token fields
unchanged. -/
theorem c9_revoke_amended (st : XState) (token : Option String) (tr : String)
    (hne : truthyS token = true ∨ truthyS st.access_token = true)
    (htr : tr = if truthyS token then token.getD "" else st.access_token.getD "") :
    (revoke_token st token (.success ())).1 = true
    ∧ (st.access_token = some tr →
        (revoke_token st token (.success ())).2.access_token = none)
    ∧ (st.access_token ≠ some tr → st.refresh_token = some tr →
        (revoke_token st token (.success ())).2.refresh_token = none)
    ∧ (st.access_token ≠ some tr → st.refresh_token ≠ some tr →
        (revoke_token st token (.success ())).2.access_token = st.access_token
        ∧ (revoke_token st token (.success ())).2.refresh_token = st.refresh_token)
    ∧ (truthyS st.user_id = true → st.has_supabase = true →
        (revoke_token st token (.success ())).2.store =
          some ⟨(revoke_token st token (.success ())).2.access_token,
                (revoke_token st token (.success ())).2.refresh_token,
                (revoke_token st token (.success ())).2.token_expiry⟩) := by
  have hguard : ¬ (truthyS token = false ∧ truthyS st.access_token = false) := by
    rcases hne with h | h <;> simp [h]
  simp only [revoke_token, if_neg hguard, ← htr]
  refine ⟨trivial, ?_, ?_, ?_, ?_⟩
  · intro hacc
    rw [if_pos hacc]
    rw [save_tokens_access_token]
  · intro hacc hrt
    rw [if_neg hacc, if_pos hrt]
    rw [save_tokens_refresh_token]
  · intro hacc hrt
    rw [if_neg hacc, if_neg hrt]
    constructor <;> simp [save_tokens_access_token, save_tokens_refresh_token]
  · intro hu hs
    by_cases hacc : st.access_token = some tr
    · rw [if_pos hacc]
      exact save_tokens_spec { st with access_token := none } hu hs
    · rw [if_neg hacc]
      by_cases hrt : st.refresh_token = some tr
      · rw [if_pos hrt]
        exact save_tokens_spec { st with refresh_token := none } hu hs
      · rw [if_neg hrt]
        exact save_tokens_spec st hu hs

/-- Witness for the amended claim C9: revoking at the demo state
succeeds and clears the matching access token. -/
theorem c9_revoke_amended_witness :
    (revoke_token demoState none (.success ())).1 = true
    ∧ (revoke_token demoState none (.success ())).2.access_token = none := by
  have h := c9_revoke_amended demoState none "acc" (Or.inr (by decide)) (by decide)
  exact ⟨h.1, h.2.1 rfl⟩

end Vibebot
